import Mathlib

/- Shallow embedding of the retrospector crate (src/lib.rs, src/render.rs,
src/update.rs, src/app.rs).

Modelling conventions:
* `f64` is modelled as `ℚ`.  The drawing and sprite paths use only addition,
  multiplication and order comparisons on values that are exact in `f64`
  (integers well below 2^53), so rational arithmetic agrees with the source;
  NaN does not arise on these paths.
* `u32` is modelled as `ℕ`.  Every product the source forms
  (`x * tile_width` with `x < width / tile_width`) is bounded by the atlas
  width, hence never wraps for in-range inputs.
* `web_sys::HtmlImageElement` is modelled by the data that determines it after
  construction: the raw bytes and the format tag that are base64-encoded into
  its `src` data URI.  `Rc` sharing is modelled by value equality.
* `web_sys::CanvasRenderingContext2d` is modelled by the list of draw calls an
  operation issues to it; an operation that issues no call returns `[]`.
* `anyhow::Result` / `ensure!` are modelled with `Except String`.
* A `web_sys::KeyboardEvent` is modelled by its `key_code()` value (`ℕ`). -/

/-- Model of `web_sys::HtmlImageElement` after `set_src` of the data URI built
from `bytes` and `extension` (lib.rs `create_new_html_image_element`, and the
inline equivalent in render.rs `SpriteStore::new`). -/
structure HtmlImageElement where
  bytes : List Nat
  ext : String
deriving DecidableEq, Repr

/-- lib.rs `create_new_html_image_element`: creates the image element and sets
its src from the bytes and the format tag. -/
def create_new_html_image_element (bytes : List Nat) (extension : String) :
    HtmlImageElement :=
  { bytes := bytes, ext := extension }

/-- render.rs `Sprite`: a tile view into a shared atlas image.  The lib.rs
`Sprite` has the same fields. -/
structure Sprite where
  atlas : HtmlImageElement
  sx : ℚ
  sy : ℚ
  width : ℚ
  height : ℚ
deriving DecidableEq, Repr

/-- render.rs `Position`. -/
structure Position where
  dx : ℚ
  dy : ℚ
deriving DecidableEq, Repr

/-- lib.rs `Location`. -/
structure Location where
  dx : ℚ
  dy : ℚ
deriving DecidableEq, Repr

/-- render.rs and lib.rs `Renderer`, without the context handle: the context is
modelled by the call lists returned by the drawing operations. -/
structure Renderer where
  canvas_width : ℚ
  canvas_height : ℚ
deriving DecidableEq, Repr

/-- One call to
`CanvasRenderingContext2d::draw_image_with_html_image_element_and_sw_and_sh_and_dx_and_dy_and_dw_and_dh`. -/
structure DrawImageCall where
  image : HtmlImageElement
  sx : ℚ
  sy : ℚ
  sw : ℚ
  sh : ℚ
  dx : ℚ
  dy : ℚ
  dw : ℚ
  dh : ℚ
deriving DecidableEq, Repr

/-- One call to `CanvasRenderingContext2d::fill_text`. -/
structure FillTextCall where
  text : String
  dx : ℚ
  dy : ℚ
deriving DecidableEq, Repr

/-- render.rs `draw_image`: the `ensure!` bounds test, then one underlying draw
call.  Returns the issued calls on success. -/
def draw_image (renderer : Renderer) (sprite : Sprite) (position : Position) :
    Except String (List DrawImageCall) :=
  if 0 ≤ position.dx + sprite.width ∧ position.dx ≤ renderer.canvas_width ∧
      0 ≤ position.dy + sprite.height ∧ position.dy ≤ renderer.canvas_height then
    .ok [{ image := sprite.atlas, sx := sprite.sx, sy := sprite.sy,
           sw := sprite.width, sh := sprite.height,
           dx := position.dx, dy := position.dy,
           dw := sprite.width, dh := sprite.height }]
  else
    .error "the sprite to draw is out of canvas"

/-- lib.rs `Renderer::render`: silent-skip variant.  Returns the list of draw
calls issued to the context (empty when the sprite is outside the canvas). -/
def Renderer.render (self : Renderer) (sprite : Sprite) (location : Location) :
    List DrawImageCall :=
  if location.dx + sprite.width < 0 ∨ location.dx > self.canvas_width ∨
      location.dy + sprite.height < 0 ∨ location.dy > self.canvas_height then
    []
  else
    [{ image := sprite.atlas, sx := sprite.sx, sy := sprite.sy,
       sw := sprite.width, sh := sprite.height,
       dx := location.dx, dy := location.dy,
       dw := sprite.width, dh := sprite.height }]

/-- lib.rs `Renderer::text`: returns the list of fill_text calls issued to the
context (empty when the anchor is outside the canvas). -/
def Renderer.text (self : Renderer) (text : String) (location : Location) :
    List FillTextCall :=
  if location.dx < 0 ∨ location.dx > self.canvas_width ∨
      location.dy < 0 ∨ location.dy > self.canvas_height then
    []
  else
    [{ text := text, dx := location.dx, dy := location.dy }]

/-- The row-major tile grid render.rs `SpriteStore::new` builds with its two
nested `for` loops (`for y in 0..height_in_tile { for x in 0..width_in_tile
{ store.push(...) } }`). -/
def tileGrid (atlas : HtmlImageElement) (tile_width tile_height cols rows : ℕ) :
    List Sprite :=
  (List.range rows).flatMap (fun y =>
    (List.range cols).map (fun x =>
      { atlas := atlas,
        sx := ((x * tile_width : ℕ) : ℚ),
        sy := ((y * tile_height : ℕ) : ℚ),
        width := (tile_width : ℚ),
        height := (tile_height : ℚ) }))

/-- render.rs `SpriteStore`. -/
structure SpriteStore where
  store : List Sprite
  width_in_tile : ℕ
  height_in_tile : ℕ
deriving DecidableEq, Repr

/-- render.rs `SpriteStore::new`: two divisibility `ensure!`s, then image
creation and the eager row-major grid. -/
def SpriteStore.new (bytes : List Nat) (extension : String)
    (width height tile_width tile_height : ℕ) : Except String SpriteStore :=
  if width % tile_width ≠ 0 then
    .error "width should be divisible by tile_width"
  else if height % tile_height ≠ 0 then
    .error "height should be divisible by tile_height"
  else
    let atlas := create_new_html_image_element bytes extension
    let width_in_tile := width / tile_width
    let height_in_tile := height / tile_height
    .ok { store := tileGrid atlas tile_width tile_height width_in_tile height_in_tile,
          width_in_tile := width_in_tile,
          height_in_tile := height_in_tile }

/-- render.rs `SpriteStore::sprite`: `self.store.get(index)` with an error
context when the index is out of range. -/
def SpriteStore.sprite (self : SpriteStore) (index : ℕ) : Except String Sprite :=
  match self.store[index]? with
  | some s => .ok s
  | none => .error "failed to get the sprite from the atlas by index"

/-- render.rs `SpriteStore::sprite_by_col_and_row`: two bounds `ensure!`s, then
the linear lookup at `col + row * width_in_tile`. -/
def SpriteStore.sprite_by_col_and_row (self : SpriteStore) (col row : ℕ) :
    Except String Sprite :=
  if col < self.width_in_tile then
    if row < self.height_in_tile then
      self.sprite (col + row * self.width_in_tile)
    else
      .error "row should be less than height_in_tile"
  else
    .error "col should be less than width_in_tile"

/-- lib.rs `SpriteBuilder`: the historical variant that keeps only the shared
atlas image and the tile width and height. -/
structure SpriteBuilder where
  atlas : HtmlImageElement
  width : ℚ
  height : ℚ
deriving DecidableEq, Repr

/-- lib.rs `SpriteBuilder::new`: creates the image element and stores the tile
dimensions.  It is infallible and performs no divisibility check. -/
def SpriteBuilder.new (bytes : List Nat) (extension : String)
    (width height : ℚ) : SpriteBuilder :=
  { atlas := create_new_html_image_element bytes extension,
    width := width, height := height }

/-- lib.rs `SpriteBuilder::sprite`: computes `sx = col * width`,
`sy = row * height` for any `i32` pair and always returns a `Sprite`. -/
def SpriteBuilder.sprite (self : SpriteBuilder) (col row : ℤ) : Sprite :=
  { atlas := self.atlas,
    sx := (col : ℚ) * self.width,
    sy := (row : ℚ) * self.height,
    width := self.width,
    height := self.height }

/-- update.rs `KeyEvent`: one boolean flag per tracked key.  The lib.rs
`KeyEvent` is field-for-field identical. -/
structure KeyEvent where
  enter : Bool
  arrow_left : Bool
  arrow_up : Bool
  arrow_right : Bool
  arrow_down : Bool
  digit_0 : Bool
  digit_1 : Bool
  digit_2 : Bool
  digit_3 : Bool
  digit_4 : Bool
  digit_5 : Bool
  digit_6 : Bool
  digit_7 : Bool
  digit_8 : Bool
  digit_9 : Bool
  key_a : Bool
  key_b : Bool
  key_c : Bool
  key_d : Bool
  key_e : Bool
  key_f : Bool
  key_g : Bool
  key_h : Bool
  key_i : Bool
  key_j : Bool
  key_k : Bool
  key_l : Bool
  key_m : Bool
  key_n : Bool
  key_o : Bool
  key_p : Bool
  key_q : Bool
  key_r : Bool
  key_s : Bool
  key_t : Bool
  key_u : Bool
  key_v : Bool
  key_w : Bool
  key_x : Bool
  key_y : Bool
  key_z : Bool
deriving DecidableEq, Repr

/-- update.rs `KeyEvent::new`: every flag false. -/
def KeyEvent.new : KeyEvent :=
  { enter := false, arrow_left := false, arrow_up := false, arrow_right := false,
    arrow_down := false,
    digit_0 := false, digit_1 := false, digit_2 := false, digit_3 := false,
    digit_4 := false, digit_5 := false, digit_6 := false, digit_7 := false,
    digit_8 := false, digit_9 := false,
    key_a := false, key_b := false, key_c := false, key_d := false,
    key_e := false, key_f := false, key_g := false, key_h := false,
    key_i := false, key_j := false, key_k := false, key_l := false,
    key_m := false, key_n := false, key_o := false, key_p := false,
    key_q := false, key_r := false, key_s := false, key_t := false,
    key_u := false, key_v := false, key_w := false, key_x := false,
    key_y := false, key_z := false }

/-- update.rs `KeyEvent::update_on_keydown`: dispatch on the event's raw
`key_code()` against the `web_sys::KeyEvent::DOM_VK_*` constants
(RETURN = 13, LEFT = 37, UP = 38, RIGHT = 39, DOWN = 40, 0..9 = 48..57,
A..Z = 65..90); set the matching flag to true; unmatched codes fall to the
empty default arm. -/
def KeyEvent.update_on_keydown (self : KeyEvent) (code : ℕ) : KeyEvent :=
  if code = 13 then { self with enter := true }
  else if code = 37 then { self with arrow_left := true }
  else if code = 38 then { self with arrow_up := true }
  else if code = 39 then { self with arrow_right := true }
  else if code = 40 then { self with arrow_down := true }
  else if code = 48 then { self with digit_0 := true }
  else if code = 49 then { self with digit_1 := true }
  else if code = 50 then { self with digit_2 := true }
  else if code = 51 then { self with digit_3 := true }
  else if code = 52 then { self with digit_4 := true }
  else if code = 53 then { self with digit_5 := true }
  else if code = 54 then { self with digit_6 := true }
  else if code = 55 then { self with digit_7 := true }
  else if code = 56 then { self with digit_8 := true }
  else if code = 57 then { self with digit_9 := true }
  else if code = 65 then { self with key_a := true }
  else if code = 66 then { self with key_b := true }
  else if code = 67 then { self with key_c := true }
  else if code = 68 then { self with key_d := true }
  else if code = 69 then { self with key_e := true }
  else if code = 70 then { self with key_f := true }
  else if code = 71 then { self with key_g := true }
  else if code = 72 then { self with key_h := true }
  else if code = 73 then { self with key_i := true }
  else if code = 74 then { self with key_j := true }
  else if code = 75 then { self with key_k := true }
  else if code = 76 then { self with key_l := true }
  else if code = 77 then { self with key_m := true }
  else if code = 78 then { self with key_n := true }
  else if code = 79 then { self with key_o := true }
  else if code = 80 then { self with key_p := true }
  else if code = 81 then { self with key_q := true }
  else if code = 82 then { self with key_r := true }
  else if code = 83 then { self with key_s := true }
  else if code = 84 then { self with key_t := true }
  else if code = 85 then { self with key_u := true }
  else if code = 86 then { self with key_v := true }
  else if code = 87 then { self with key_w := true }
  else if code = 88 then { self with key_x := true }
  else if code = 89 then { self with key_y := true }
  else if code = 90 then { self with key_z := true }
  else self

/-- update.rs `KeyEvent::update_on_keyup`: the same dispatch, setting the
matching flag to false. -/
def KeyEvent.update_on_keyup (self : KeyEvent) (code : ℕ) : KeyEvent :=
  if code = 13 then { self with enter := false }
  else if code = 37 then { self with arrow_left := false }
  else if code = 38 then { self with arrow_up := false }
  else if code = 39 then { self with arrow_right := false }
  else if code = 40 then { self with arrow_down := false }
  else if code = 48 then { self with digit_0 := false }
  else if code = 49 then { self with digit_1 := false }
  else if code = 50 then { self with digit_2 := false }
  else if code = 51 then { self with digit_3 := false }
  else if code = 52 then { self with digit_4 := false }
  else if code = 53 then { self with digit_5 := false }
  else if code = 54 then { self with digit_6 := false }
  else if code = 55 then { self with digit_7 := false }
  else if code = 56 then { self with digit_8 := false }
  else if code = 57 then { self with digit_9 := false }
  else if code = 65 then { self with key_a := false }
  else if code = 66 then { self with key_b := false }
  else if code = 67 then { self with key_c := false }
  else if code = 68 then { self with key_d := false }
  else if code = 69 then { self with key_e := false }
  else if code = 70 then { self with key_f := false }
  else if code = 71 then { self with key_g := false }
  else if code = 72 then { self with key_h := false }
  else if code = 73 then { self with key_i := false }
  else if code = 74 then { self with key_j := false }
  else if code = 75 then { self with key_k := false }
  else if code = 76 then { self with key_l := false }
  else if code = 77 then { self with key_m := false }
  else if code = 78 then { self with key_n := false }
  else if code = 79 then { self with key_o := false }
  else if code = 80 then { self with key_p := false }
  else if code = 81 then { self with key_q := false }
  else if code = 82 then { self with key_r := false }
  else if code = 83 then { self with key_s := false }
  else if code = 84 then { self with key_t := false }
  else if code = 85 then { self with key_u := false }
  else if code = 86 then { self with key_v := false }
  else if code = 87 then { self with key_w := false }
  else if code = 88 then { self with key_x := false }
  else if code = 89 then { self with key_y := false }
  else if code = 90 then { self with key_z := false }
  else self

/-- lib.rs and update.rs `KeyEvent::is_enter_down`. -/
def KeyEvent.is_enter_down (self : KeyEvent) : Bool := self.enter

/-- lib.rs and update.rs `KeyEvent::is_key_a_down`. -/
def KeyEvent.is_key_a_down (self : KeyEvent) : Bool := self.key_a

/-- The tracked key identifiers, one per `KeyEvent` flag. -/
inductive KeyId where
  | enter | arrow_left | arrow_up | arrow_right | arrow_down
  | digit_0 | digit_1 | digit_2 | digit_3 | digit_4
  | digit_5 | digit_6 | digit_7 | digit_8 | digit_9
  | key_a | key_b | key_c | key_d | key_e | key_f | key_g | key_h | key_i
  | key_j | key_k | key_l | key_m | key_n | key_o | key_p | key_q | key_r
  | key_s | key_t | key_u | key_v | key_w | key_x | key_y | key_z
deriving DecidableEq, Repr

/-- The static raw-key-code-to-flag table of update.rs (the `DOM_VK_*` match
arms), as an observation map: the tracked identifier a raw code is mapped to,
or `none` for an unmapped code. -/
def keyOfCode (code : ℕ) : Option KeyId :=
  if code = 13 then some .enter
  else if code = 37 then some .arrow_left
  else if code = 38 then some .arrow_up
  else if code = 39 then some .arrow_right
  else if code = 40 then some .arrow_down
  else if code = 48 then some .digit_0
  else if code = 49 then some .digit_1
  else if code = 50 then some .digit_2
  else if code = 51 then some .digit_3
  else if code = 52 then some .digit_4
  else if code = 53 then some .digit_5
  else if code = 54 then some .digit_6
  else if code = 55 then some .digit_7
  else if code = 56 then some .digit_8
  else if code = 57 then some .digit_9
  else if code = 65 then some .key_a
  else if code = 66 then some .key_b
  else if code = 67 then some .key_c
  else if code = 68 then some .key_d
  else if code = 69 then some .key_e
  else if code = 70 then some .key_f
  else if code = 71 then some .key_g
  else if code = 72 then some .key_h
  else if code = 73 then some .key_i
  else if code = 74 then some .key_j
  else if code = 75 then some .key_k
  else if code = 76 then some .key_l
  else if code = 77 then some .key_m
  else if code = 78 then some .key_n
  else if code = 79 then some .key_o
  else if code = 80 then some .key_p
  else if code = 81 then some .key_q
  else if code = 82 then some .key_r
  else if code = 83 then some .key_s
  else if code = 84 then some .key_t
  else if code = 85 then some .key_u
  else if code = 86 then some .key_v
  else if code = 87 then some .key_w
  else if code = 88 then some .key_x
  else if code = 89 then some .key_y
  else if code = 90 then some .key_z
  else none

/-- The family of `is_<name>_down` read accessors of update.rs and lib.rs,
indexed by the tracked identifier: the flag of the given key. -/
def KeyEvent.getFlag (self : KeyEvent) : KeyId → Bool
  | .enter => self.enter
  | .arrow_left => self.arrow_left
  | .arrow_up => self.arrow_up
  | .arrow_right => self.arrow_right
  | .arrow_down => self.arrow_down
  | .digit_0 => self.digit_0
  | .digit_1 => self.digit_1
  | .digit_2 => self.digit_2
  | .digit_3 => self.digit_3
  | .digit_4 => self.digit_4
  | .digit_5 => self.digit_5
  | .digit_6 => self.digit_6
  | .digit_7 => self.digit_7
  | .digit_8 => self.digit_8
  | .digit_9 => self.digit_9
  | .key_a => self.key_a
  | .key_b => self.key_b
  | .key_c => self.key_c
  | .key_d => self.key_d
  | .key_e => self.key_e
  | .key_f => self.key_f
  | .key_g => self.key_g
  | .key_h => self.key_h
  | .key_i => self.key_i
  | .key_j => self.key_j
  | .key_k => self.key_k
  | .key_l => self.key_l
  | .key_m => self.key_m
  | .key_n => self.key_n
  | .key_o => self.key_o
  | .key_p => self.key_p
  | .key_q => self.key_q
  | .key_r => self.key_r
  | .key_s => self.key_s
  | .key_t => self.key_t
  | .key_u => self.key_u
  | .key_v => self.key_v
  | .key_w => self.key_w
  | .key_x => self.key_x
  | .key_y => self.key_y
  | .key_z => self.key_z

lemma grid_flatMap_length {α : Type} (f : ℕ → ℕ → α) (cols : ℕ) :
    ∀ rows : ℕ,
      ((List.range rows).flatMap (fun y => (List.range cols).map (fun x => f x y))).length
        = rows * cols := by
  intro rows
  induction rows with
  | zero => simp
  | succ n ih =>
    rw [List.range_succ, List.flatMap_append, List.length_append, ih]
    simp only [List.flatMap_cons, List.flatMap_nil, List.append_nil,
      List.length_map, List.length_range]
    ring

lemma grid_flatMap_get {α : Type} (f : ℕ → ℕ → α) (cols : ℕ) :
    ∀ rows c r : ℕ, c < cols → r < rows →
      ((List.range rows).flatMap (fun y => (List.range cols).map (fun x => f x y)))[c + r * cols]?
        = some (f c r) := by
  intro rows
  induction rows with
  | zero => omega
  | succ n ih =>
    intro c r hc hr
    rw [List.range_succ, List.flatMap_append]
    rcases Nat.lt_or_ge r n with h | h
    · rw [List.getElem?_append_left]
      · exact ih c r hc h
      · rw [grid_flatMap_length f cols n]
        have h1 : c + r * cols < (r + 1) * cols := by
          rw [Nat.add_mul, Nat.one_mul]; omega
        have h2 : (r + 1) * cols ≤ n * cols := Nat.mul_le_mul_right _ (by omega)
        omega
    · have hr' : r = n := by omega
      rw [hr']
      rw [List.getElem?_append_right (by rw [grid_flatMap_length f cols n]; omega)]
      rw [grid_flatMap_length f cols n]
      simp only [List.flatMap_cons, List.flatMap_nil, List.append_nil]
      rw [show c + n * cols - n * cols = c from by omega]
      rw [List.getElem?_map, List.getElem?_range hc]
      rfl

lemma tileGrid_length (atlas : HtmlImageElement) (tw th cols rows : ℕ) :
    (tileGrid atlas tw th cols rows).length = rows * cols :=
  grid_flatMap_length _ cols rows

lemma tileGrid_get (atlas : HtmlImageElement) (tw th cols rows c r : ℕ)
    (hc : c < cols) (hr : r < rows) :
    (tileGrid atlas tw th cols rows)[c + r * cols]? =
      some { atlas := atlas, sx := ((c * tw : ℕ) : ℚ), sy := ((r * th : ℕ) : ℚ),
             width := (tw : ℚ), height := (th : ℚ) } :=
  grid_flatMap_get _ cols rows c r hc hr

lemma spriteStore_new_ok (bytes : List Nat) (ext : String) (w h tw th : ℕ)
    (h1 : w % tw = 0) (h2 : h % th = 0) :
    SpriteStore.new bytes ext w h tw th =
      Except.ok
        { store := tileGrid (create_new_html_image_element bytes ext) tw th (w / tw) (h / th),
          width_in_tile := w / tw, height_in_tile := h / th } := by
  unfold SpriteStore.new
  rw [if_neg (not_not_intro h1), if_neg (not_not_intro h2)]

lemma spriteStore_new_ok_elim {bytes : List Nat} {ext : String}
    {w h tw th : ℕ} {st : SpriteStore}
    (hst : SpriteStore.new bytes ext w h tw th = Except.ok st) :
    w % tw = 0 ∧ h % th = 0 ∧
      st = { store := tileGrid (create_new_html_image_element bytes ext) tw th (w / tw) (h / th),
             width_in_tile := w / tw, height_in_tile := h / th } := by
  unfold SpriteStore.new at hst
  split_ifs at hst with ha hb
  cases hst
  exact ⟨not_not.mp ha, not_not.mp hb, rfl⟩

lemma keydown_unmapped (s : KeyEvent) (code : ℕ) (h : keyOfCode code = none) :
    s.update_on_keydown code = s := by
  have h13 : code ≠ 13 := fun he => by subst he; exact absurd h (by decide)
  have h37 : code ≠ 37 := fun he => by subst he; exact absurd h (by decide)
  have h38 : code ≠ 38 := fun he => by subst he; exact absurd h (by decide)
  have h39 : code ≠ 39 := fun he => by subst he; exact absurd h (by decide)
  have h40 : code ≠ 40 := fun he => by subst he; exact absurd h (by decide)
  have h48 : code ≠ 48 := fun he => by subst he; exact absurd h (by decide)
  have h49 : code ≠ 49 := fun he => by subst he; exact absurd h (by decide)
  have h50 : code ≠ 50 := fun he => by subst he; exact absurd h (by decide)
  have h51 : code ≠ 51 := fun he => by subst he; exact absurd h (by decide)
  have h52 : code ≠ 52 := fun he => by subst he; exact absurd h (by decide)
  have h53 : code ≠ 53 := fun he => by subst he; exact absurd h (by decide)
  have h54 : code ≠ 54 := fun he => by subst he; exact absurd h (by decide)
  have h55 : code ≠ 55 := fun he => by subst he; exact absurd h (by decide)
  have h56 : code ≠ 56 := fun he => by subst he; exact absurd h (by decide)
  have h57 : code ≠ 57 := fun he => by subst he; exact absurd h (by decide)
  have h65 : code ≠ 65 := fun he => by subst he; exact absurd h (by decide)
  have h66 : code ≠ 66 := fun he => by subst he; exact absurd h (by decide)
  have h67 : code ≠ 67 := fun he => by subst he; exact absurd h (by decide)
  have h68 : code ≠ 68 := fun he => by subst he; exact absurd h (by decide)
  have h69 : code ≠ 69 := fun he => by subst he; exact absurd h (by decide)
  have h70 : code ≠ 70 := fun he => by subst he; exact absurd h (by decide)
  have h71 : code ≠ 71 := fun he => by subst he; exact absurd h (by decide)
  have h72 : code ≠ 72 := fun he => by subst he; exact absurd h (by decide)
  have h73 : code ≠ 73 := fun he => by subst he; exact absurd h (by decide)
  have h74 : code ≠ 74 := fun he => by subst he; exact absurd h (by decide)
  have h75 : code ≠ 75 := fun he => by subst he; exact absurd h (by decide)
  have h76 : code ≠ 76 := fun he => by subst he; exact absurd h (by decide)
  have h77 : code ≠ 77 := fun he => by subst he; exact absurd h (by decide)
  have h78 : code ≠ 78 := fun he => by subst he; exact absurd h (by decide)
  have h79 : code ≠ 79 := fun he => by subst he; exact absurd h (by decide)
  have h80 : code ≠ 80 := fun he => by subst he; exact absurd h (by decide)
  have h81 : code ≠ 81 := fun he => by subst he; exact absurd h (by decide)
  have h82 : code ≠ 82 := fun he => by subst he; exact absurd h (by decide)
  have h83 : code ≠ 83 := fun he => by subst he; exact absurd h (by decide)
  have h84 : code ≠ 84 := fun he => by subst he; exact absurd h (by decide)
  have h85 : code ≠ 85 := fun he => by subst he; exact absurd h (by decide)
  have h86 : code ≠ 86 := fun he => by subst he; exact absurd h (by decide)
  have h87 : code ≠ 87 := fun he => by subst he; exact absurd h (by decide)
  have h88 : code ≠ 88 := fun he => by subst he; exact absurd h (by decide)
  have h89 : code ≠ 89 := fun he => by subst he; exact absurd h (by decide)
  have h90 : code ≠ 90 := fun he => by subst he; exact absurd h (by decide)
  unfold KeyEvent.update_on_keydown
  rw [if_neg h13, if_neg h37, if_neg h38, if_neg h39, if_neg h40, if_neg h48, if_neg h49, if_neg h50, if_neg h51, if_neg h52, if_neg h53, if_neg h54, if_neg h55, if_neg h56, if_neg h57, if_neg h65, if_neg h66, if_neg h67, if_neg h68, if_neg h69, if_neg h70, if_neg h71, if_neg h72, if_neg h73, if_neg h74, if_neg h75, if_neg h76, if_neg h77, if_neg h78, if_neg h79, if_neg h80, if_neg h81, if_neg h82, if_neg h83, if_neg h84, if_neg h85, if_neg h86, if_neg h87, if_neg h88, if_neg h89, if_neg h90]

lemma keyup_unmapped (s : KeyEvent) (code : ℕ) (h : keyOfCode code = none) :
    s.update_on_keyup code = s := by
  have h13 : code ≠ 13 := fun he => by subst he; exact absurd h (by decide)
  have h37 : code ≠ 37 := fun he => by subst he; exact absurd h (by decide)
  have h38 : code ≠ 38 := fun he => by subst he; exact absurd h (by decide)
  have h39 : code ≠ 39 := fun he => by subst he; exact absurd h (by decide)
  have h40 : code ≠ 40 := fun he => by subst he; exact absurd h (by decide)
  have h48 : code ≠ 48 := fun he => by subst he; exact absurd h (by decide)
  have h49 : code ≠ 49 := fun he => by subst he; exact absurd h (by decide)
  have h50 : code ≠ 50 := fun he => by subst he; exact absurd h (by decide)
  have h51 : code ≠ 51 := fun he => by subst he; exact absurd h (by decide)
  have h52 : code ≠ 52 := fun he => by subst he; exact absurd h (by decide)
  have h53 : code ≠ 53 := fun he => by subst he; exact absurd h (by decide)
  have h54 : code ≠ 54 := fun he => by subst he; exact absurd h (by decide)
  have h55 : code ≠ 55 := fun he => by subst he; exact absurd h (by decide)
  have h56 : code ≠ 56 := fun he => by subst he; exact absurd h (by decide)
  have h57 : code ≠ 57 := fun he => by subst he; exact absurd h (by decide)
  have h65 : code ≠ 65 := fun he => by subst he; exact absurd h (by decide)
  have h66 : code ≠ 66 := fun he => by subst he; exact absurd h (by decide)
  have h67 : code ≠ 67 := fun he => by subst he; exact absurd h (by decide)
  have h68 : code ≠ 68 := fun he => by subst he; exact absurd h (by decide)
  have h69 : code ≠ 69 := fun he => by subst he; exact absurd h (by decide)
  have h70 : code ≠ 70 := fun he => by subst he; exact absurd h (by decide)
  have h71 : code ≠ 71 := fun he => by subst he; exact absurd h (by decide)
  have h72 : code ≠ 72 := fun he => by subst he; exact absurd h (by decide)
  have h73 : code ≠ 73 := fun he => by subst he; exact absurd h (by decide)
  have h74 : code ≠ 74 := fun he => by subst he; exact absurd h (by decide)
  have h75 : code ≠ 75 := fun he => by subst he; exact absurd h (by decide)
  have h76 : code ≠ 76 := fun he => by subst he; exact absurd h (by decide)
  have h77 : code ≠ 77 := fun he => by subst he; exact absurd h (by decide)
  have h78 : code ≠ 78 := fun he => by subst he; exact absurd h (by decide)
  have h79 : code ≠ 79 := fun he => by subst he; exact absurd h (by decide)
  have h80 : code ≠ 80 := fun he => by subst he; exact absurd h (by decide)
  have h81 : code ≠ 81 := fun he => by subst he; exact absurd h (by decide)
  have h82 : code ≠ 82 := fun he => by subst he; exact absurd h (by decide)
  have h83 : code ≠ 83 := fun he => by subst he; exact absurd h (by decide)
  have h84 : code ≠ 84 := fun he => by subst he; exact absurd h (by decide)
  have h85 : code ≠ 85 := fun he => by subst he; exact absurd h (by decide)
  have h86 : code ≠ 86 := fun he => by subst he; exact absurd h (by decide)
  have h87 : code ≠ 87 := fun he => by subst he; exact absurd h (by decide)
  have h88 : code ≠ 88 := fun he => by subst he; exact absurd h (by decide)
  have h89 : code ≠ 89 := fun he => by subst he; exact absurd h (by decide)
  have h90 : code ≠ 90 := fun he => by subst he; exact absurd h (by decide)
  unfold KeyEvent.update_on_keyup
  rw [if_neg h13, if_neg h37, if_neg h38, if_neg h39, if_neg h40, if_neg h48, if_neg h49, if_neg h50, if_neg h51, if_neg h52, if_neg h53, if_neg h54, if_neg h55, if_neg h56, if_neg h57, if_neg h65, if_neg h66, if_neg h67, if_neg h68, if_neg h69, if_neg h70, if_neg h71, if_neg h72, if_neg h73, if_neg h74, if_neg h75, if_neg h76, if_neg h77, if_neg h78, if_neg h79, if_neg h80, if_neg h81, if_neg h82, if_neg h83, if_neg h84, if_neg h85, if_neg h86, if_neg h87, if_neg h88, if_neg h89, if_neg h90]

/-- The raw key codes the update.rs dispatch recognizes, in source order. -/
def trackedCodes : List ℕ := [13, 37, 38, 39, 40, 48, 49, 50, 51, 52, 53, 54, 55, 56, 57, 65, 66, 67, 68, 69, 70, 71, 72, 73, 74, 75, 76, 77, 78, 79, 80, 81, 82, 83, 84, 85, 86, 87, 88, 89, 90]

lemma keyOfCode_eq_none (code : ℕ) (h : code ∉ trackedCodes) : keyOfCode code = none := by
  have h13 : code ≠ 13 := fun he => h (by rw [he]; decide)
  have h37 : code ≠ 37 := fun he => h (by rw [he]; decide)
  have h38 : code ≠ 38 := fun he => h (by rw [he]; decide)
  have h39 : code ≠ 39 := fun he => h (by rw [he]; decide)
  have h40 : code ≠ 40 := fun he => h (by rw [he]; decide)
  have h48 : code ≠ 48 := fun he => h (by rw [he]; decide)
  have h49 : code ≠ 49 := fun he => h (by rw [he]; decide)
  have h50 : code ≠ 50 := fun he => h (by rw [he]; decide)
  have h51 : code ≠ 51 := fun he => h (by rw [he]; decide)
  have h52 : code ≠ 52 := fun he => h (by rw [he]; decide)
  have h53 : code ≠ 53 := fun he => h (by rw [he]; decide)
  have h54 : code ≠ 54 := fun he => h (by rw [he]; decide)
  have h55 : code ≠ 55 := fun he => h (by rw [he]; decide)
  have h56 : code ≠ 56 := fun he => h (by rw [he]; decide)
  have h57 : code ≠ 57 := fun he => h (by rw [he]; decide)
  have h65 : code ≠ 65 := fun he => h (by rw [he]; decide)
  have h66 : code ≠ 66 := fun he => h (by rw [he]; decide)
  have h67 : code ≠ 67 := fun he => h (by rw [he]; decide)
  have h68 : code ≠ 68 := fun he => h (by rw [he]; decide)
  have h69 : code ≠ 69 := fun he => h (by rw [he]; decide)
  have h70 : code ≠ 70 := fun he => h (by rw [he]; decide)
  have h71 : code ≠ 71 := fun he => h (by rw [he]; decide)
  have h72 : code ≠ 72 := fun he => h (by rw [he]; decide)
  have h73 : code ≠ 73 := fun he => h (by rw [he]; decide)
  have h74 : code ≠ 74 := fun he => h (by rw [he]; decide)
  have h75 : code ≠ 75 := fun he => h (by rw [he]; decide)
  have h76 : code ≠ 76 := fun he => h (by rw [he]; decide)
  have h77 : code ≠ 77 := fun he => h (by rw [he]; decide)
  have h78 : code ≠ 78 := fun he => h (by rw [he]; decide)
  have h79 : code ≠ 79 := fun he => h (by rw [he]; decide)
  have h80 : code ≠ 80 := fun he => h (by rw [he]; decide)
  have h81 : code ≠ 81 := fun he => h (by rw [he]; decide)
  have h82 : code ≠ 82 := fun he => h (by rw [he]; decide)
  have h83 : code ≠ 83 := fun he => h (by rw [he]; decide)
  have h84 : code ≠ 84 := fun he => h (by rw [he]; decide)
  have h85 : code ≠ 85 := fun he => h (by rw [he]; decide)
  have h86 : code ≠ 86 := fun he => h (by rw [he]; decide)
  have h87 : code ≠ 87 := fun he => h (by rw [he]; decide)
  have h88 : code ≠ 88 := fun he => h (by rw [he]; decide)
  have h89 : code ≠ 89 := fun he => h (by rw [he]; decide)
  have h90 : code ≠ 90 := fun he => h (by rw [he]; decide)
  unfold keyOfCode
  rw [if_neg h13, if_neg h37, if_neg h38, if_neg h39, if_neg h40, if_neg h48, if_neg h49, if_neg h50, if_neg h51, if_neg h52, if_neg h53, if_neg h54, if_neg h55, if_neg h56, if_neg h57, if_neg h65, if_neg h66, if_neg h67, if_neg h68, if_neg h69, if_neg h70, if_neg h71, if_neg h72, if_neg h73, if_neg h74, if_neg h75, if_neg h76, if_neg h77, if_neg h78, if_neg h79, if_neg h80, if_neg h81, if_neg h82, if_neg h83, if_neg h84, if_neg h85, if_neg h86, if_neg h87, if_neg h88, if_neg h89, if_neg h90]

lemma mem_trackedCodes_of_keyOfCode {code : ℕ} {k : KeyId}
    (hk : keyOfCode code = some k) : code ∈ trackedCodes := by
  by_contra hmem
  rw [keyOfCode_eq_none code hmem] at hk
  cases hk

/-- C1, counterexample: the claim also names `SpriteBuilder::new` as failing on
a divisibility violation, but `SpriteBuilder::new` takes no atlas dimensions,
performs no divisibility check, and is infallible: building the atlas for an
intended 65-wide image with 32-wide tiles through it still succeeds. -/
theorem C1_counterexample :
    SpriteBuilder.new [] "png" 32 32 =
      { atlas := create_new_html_image_element [] "png", width := 32, height := 32 } :=
  rfl

/-- C1, amended: for `SpriteStore::new` (the checking constructor, with
positive tile dimensions so that the source's `%` is defined), a violated
divisibility condition makes construction return an error, so no atlas value
(no image, no grid) is produced. -/
theorem C1_store_divisibility_error (bytes : List Nat) (ext : String)
    (w h tw th : ℕ) (htw : 0 < tw) (hth : 0 < th)
    (hbad : w % tw ≠ 0 ∨ h % th ≠ 0) :
    ∃ e, SpriteStore.new bytes ext w h tw th = Except.error e := by
  unfold SpriteStore.new
  rcases hbad with hb | hb
  · rw [if_pos hb]
    exact ⟨_, rfl⟩
  · by_cases hw : w % tw ≠ 0
    · rw [if_pos hw]
      exact ⟨_, rfl⟩
    · rw [if_neg hw, if_pos hb]
      exact ⟨_, rfl⟩

/-- C1, witness: a 65 by 32 image with 32 by 32 tiles is rejected by
`SpriteStore::new`. -/
theorem C1_witness :
    (0 < 32 ∧ 0 < 32 ∧ (65 % 32 ≠ 0 ∨ 32 % 32 ≠ 0)) ∧
      ∃ e, SpriteStore.new [] "png" 65 32 32 32 = Except.error e :=
  ⟨by decide,
   C1_store_divisibility_error [] "png" 65 32 32 32 (by decide) (by decide)
     (Or.inl (by decide))⟩

/-- C2: when both divisibility conditions hold (and tile dimensions are
positive), `SpriteStore::new` succeeds with a gap-free grid of
`columns = width / tile_width` by `rows = height / tile_height` cells, and the
cell at `(c, r)` carries source offset `(c * tile_width, r * tile_height)` and
the tile dimensions; and the `SpriteBuilder::sprite` lookup of the lib.rs
variant returns a tile with `(sx, sy) = (c * width, r * height)` and the tile
dimensions for every pair. -/
theorem C2_grid_and_lookup :
    (∀ (bytes : List Nat) (ext : String) (w h tw th : ℕ),
       0 < tw → 0 < th → w % tw = 0 → h % th = 0 →
       ∃ st, SpriteStore.new bytes ext w h tw th = Except.ok st ∧
         st.width_in_tile = w / tw ∧ st.height_in_tile = h / th ∧
         st.store.length = (w / tw) * (h / th) ∧
         ∀ c r : ℕ, c < w / tw → r < h / th →
           st.store[c + r * (w / tw)]? =
             some { atlas := create_new_html_image_element bytes ext,
                    sx := ((c * tw : ℕ) : ℚ), sy := ((r * th : ℕ) : ℚ),
                    width := (tw : ℚ), height := (th : ℚ) }) ∧
    (∀ (b : SpriteBuilder) (c r : ℤ),
       b.sprite c r =
         { atlas := b.atlas, sx := (c : ℚ) * b.width, sy := (r : ℚ) * b.height,
           width := b.width, height := b.height }) := by
  constructor
  · intro bytes ext w h tw th htw hth h1 h2
    refine ⟨_, spriteStore_new_ok bytes ext w h tw th h1 h2, rfl, rfl, ?_, ?_⟩
    · exact (tileGrid_length _ tw th (w / tw) (h / th)).trans (Nat.mul_comm _ _)
    · intro c r hc hr
      exact tileGrid_get _ tw th (w / tw) (h / th) c r hc hr
  · intro b c r
    rfl

/-- C2, witness: the 64 by 32 atlas with 32 by 32 tiles. -/
theorem C2_witness :
    (0 < 32 ∧ 0 < 32 ∧ 64 % 32 = 0 ∧ 32 % 32 = 0) ∧
      ∃ st, SpriteStore.new [] "png" 64 32 32 32 = Except.ok st ∧
        st.width_in_tile = 64 / 32 ∧ st.height_in_tile = 32 / 32 ∧
        st.store.length = 64 / 32 * (32 / 32) ∧
        ∀ c r : ℕ, c < 64 / 32 → r < 32 / 32 →
          st.store[c + r * (64 / 32)]? =
            some { atlas := create_new_html_image_element [] "png",
                   sx := ((c * 32 : ℕ) : ℚ), sy := ((r * 32 : ℕ) : ℚ),
                   width := ((32 : ℕ) : ℚ), height := ((32 : ℕ) : ℚ) } :=
  ⟨by decide,
   C2_grid_and_lookup.1 [] "png" 64 32 32 32 (by decide) (by decide)
     (by decide) (by decide)⟩

/-- C3, counterexample: the claim also names `SpriteBuilder::sprite` as a
lookup that fails out of bounds, but that lookup has no error path: on the
lib.rs variant built for a 64 by 32 atlas with 32 by 32 tiles (2 columns),
column 2 still yields a sprite — one whose source x (64) lies past the atlas —
instead of a lookup error. -/
theorem C3_counterexample :
    (SpriteBuilder.new [] "png" 32 32).sprite 2 0 =
      { atlas := create_new_html_image_element [] "png",
        sx := 64, sy := 0, width := 32, height := 32 } := by
  norm_num [SpriteBuilder.new, SpriteBuilder.sprite, create_new_html_image_element,
    Sprite.mk.injEq]

/-- C3, amended: for `SpriteStore` (the checking variant), a grid built by
`SpriteStore::new` rejects every linear index at or past `columns * rows` and
every pair with `col ≥ columns` or `row ≥ rows` with an error, and — the
lookups taking the store immutably — valid pairs still succeed with the
unchanged grid values. -/
theorem C3_store_lookup_bounds (bytes : List Nat) (ext : String)
    (w h tw th : ℕ) (st : SpriteStore)
    (hst : SpriteStore.new bytes ext w h tw th = Except.ok st) :
    (∀ index : ℕ, st.width_in_tile * st.height_in_tile ≤ index →
       ∃ e, st.sprite index = Except.error e) ∧
    (∀ col row : ℕ, st.width_in_tile ≤ col ∨ st.height_in_tile ≤ row →
       ∃ e, st.sprite_by_col_and_row col row = Except.error e) ∧
    (∀ col row : ℕ, col < st.width_in_tile → row < st.height_in_tile →
       st.sprite_by_col_and_row col row =
         Except.ok { atlas := create_new_html_image_element bytes ext,
                     sx := ((col * tw : ℕ) : ℚ), sy := ((row * th : ℕ) : ℚ),
                     width := (tw : ℚ), height := (th : ℚ) }) := by
  obtain ⟨h1, h2, rfl⟩ := spriteStore_new_ok_elim hst
  refine ⟨?_, ?_, ?_⟩
  · intro index hindex
    unfold SpriteStore.sprite
    rw [List.getElem?_eq_none (by rw [tileGrid_length, Nat.mul_comm]; exact hindex)]
    exact ⟨_, rfl⟩
  · intro col row hbad
    unfold SpriteStore.sprite_by_col_and_row
    rcases hbad with hb | hb
    · rw [if_neg (by omega)]
      exact ⟨_, rfl⟩
    · by_cases hcol : col < w / tw
      · rw [if_pos hcol, if_neg (by omega)]
        exact ⟨_, rfl⟩
      · rw [if_neg hcol]
        exact ⟨_, rfl⟩
  · intro col row hcol hrow
    unfold SpriteStore.sprite_by_col_and_row
    rw [if_pos hcol, if_pos hrow]
    unfold SpriteStore.sprite
    rw [tileGrid_get _ tw th (w / tw) (h / th) col row hcol hrow]

/-- C3, witness: on the 64 by 32 atlas with 32 by 32 tiles (2 columns by
1 row), out-of-range lookups fail and valid lookups still succeed. -/
theorem C3_witness :
    (SpriteStore.new [] "png" 64 32 32 32 =
       Except.ok { store := tileGrid (create_new_html_image_element [] "png") 32 32 2 1,
                   width_in_tile := 2, height_in_tile := 1 }) ∧
      ((∀ index : ℕ,
          (SpriteStore.mk (tileGrid (create_new_html_image_element [] "png") 32 32 2 1) 2 1).width_in_tile *
              (SpriteStore.mk (tileGrid (create_new_html_image_element [] "png") 32 32 2 1) 2 1).height_in_tile ≤ index →
          ∃ e, (SpriteStore.mk (tileGrid (create_new_html_image_element [] "png") 32 32 2 1) 2 1).sprite index
              = Except.error e) ∧
       (∀ col row : ℕ,
          (SpriteStore.mk (tileGrid (create_new_html_image_element [] "png") 32 32 2 1) 2 1).width_in_tile ≤ col ∨
            (SpriteStore.mk (tileGrid (create_new_html_image_element [] "png") 32 32 2 1) 2 1).height_in_tile ≤ row →
          ∃ e, (SpriteStore.mk (tileGrid (create_new_html_image_element [] "png") 32 32 2 1) 2 1).sprite_by_col_and_row col row
              = Except.error e) ∧
       (∀ col row : ℕ,
          col < (SpriteStore.mk (tileGrid (create_new_html_image_element [] "png") 32 32 2 1) 2 1).width_in_tile →
          row < (SpriteStore.mk (tileGrid (create_new_html_image_element [] "png") 32 32 2 1) 2 1).height_in_tile →
          (SpriteStore.mk (tileGrid (create_new_html_image_element [] "png") 32 32 2 1) 2 1).sprite_by_col_and_row col row
              = Except.ok { atlas := create_new_html_image_element [] "png",
                            sx := ((col * 32 : ℕ) : ℚ), sy := ((row * 32 : ℕ) : ℚ),
                            width := ((32 : ℕ) : ℚ), height := ((32 : ℕ) : ℚ) })) :=
  ⟨rfl, C3_store_lookup_bounds [] "png" 64 32 32 32 _ rfl⟩

/-- C5: for every store and every in-bounds pair, `sprite_by_col_and_row` and
the linear `sprite` at `col + row * width_in_tile` return the same result —
the same sprite with the same shared image. -/
theorem C5_pair_linear_agreement (st : SpriteStore) (col row : ℕ)
    (hcol : col < st.width_in_tile) (hrow : row < st.height_in_tile) :
    st.sprite_by_col_and_row col row = st.sprite (col + row * st.width_in_tile) := by
  unfold SpriteStore.sprite_by_col_and_row
  rw [if_pos hcol, if_pos hrow]

/-- C5, witness: the two lookups agree at (1, 0) on the 2 by 1 store. -/
theorem C5_witness :
    ((1 : ℕ) < (SpriteStore.mk (tileGrid (create_new_html_image_element [] "png") 32 32 2 1) 2 1).width_in_tile ∧
     (0 : ℕ) < (SpriteStore.mk (tileGrid (create_new_html_image_element [] "png") 32 32 2 1) 2 1).height_in_tile) ∧
      (SpriteStore.mk (tileGrid (create_new_html_image_element [] "png") 32 32 2 1) 2 1).sprite_by_col_and_row 1 0 =
        (SpriteStore.mk (tileGrid (create_new_html_image_element [] "png") 32 32 2 1) 2 1).sprite
          (1 + 0 * (SpriteStore.mk (tileGrid (create_new_html_image_element [] "png") 32 32 2 1) 2 1).width_in_tile) :=
  ⟨⟨by decide, by decide⟩,
   C5_pair_linear_agreement _ 1 0 (by decide) (by decide)⟩

lemma draw_image_error_iff (r : Renderer) (s : Sprite) (p : Position) :
    (∃ e, draw_image r s p = Except.error e) ↔
      (p.dx + s.width < 0 ∨ p.dx > r.canvas_width ∨
       p.dy + s.height < 0 ∨ p.dy > r.canvas_height) := by
  unfold draw_image
  split_ifs with hc
  · simp only [gt_iff_lt]
    constructor
    · rintro ⟨e, he⟩
      cases he
    · intro hd
      obtain ⟨a1, a2, a3, a4⟩ := hc
      rcases hd with hd | hd | hd | hd <;> linarith
  · simp only [gt_iff_lt]
    constructor
    · intro _
      rw [not_and_or, not_and_or, not_and_or] at hc
      simpa [not_le] using hc
    · intro _
      exact ⟨_, rfl⟩

lemma render_nil_iff (r : Renderer) (s : Sprite) (l : Location) :
    Renderer.render r s l = [] ↔
      (l.dx + s.width < 0 ∨ l.dx > r.canvas_width ∨
       l.dy + s.height < 0 ∨ l.dy > r.canvas_height) := by
  unfold Renderer.render
  split_ifs with hc
  · exact iff_of_true rfl hc
  · exact iff_of_false (by simp) hc

/-- C4: both drawImage variants reject a draw exactly when the sprite's box at
the given position lies entirely off canvas on some axis — render.rs
`draw_image` by returning an error, lib.rs `Renderer::render` by issuing no
draw call — and for every sprite with nonnegative dimensions on a canvas with
nonnegative dimensions, the draw at `(-width - 1, 0)` is rejected while the
draw at `(0, 0)` is accepted and issues exactly one underlying draw call. -/
theorem C4_draw_bounds :
    (∀ (r : Renderer) (s : Sprite) (p : Position),
       ((∃ e, draw_image r s p = Except.error e) ↔
          (p.dx + s.width < 0 ∨ p.dx > r.canvas_width ∨
           p.dy + s.height < 0 ∨ p.dy > r.canvas_height)) ∧
       (Renderer.render r s { dx := p.dx, dy := p.dy } = [] ↔
          (p.dx + s.width < 0 ∨ p.dx > r.canvas_width ∨
           p.dy + s.height < 0 ∨ p.dy > r.canvas_height))) ∧
    (∀ (r : Renderer) (s : Sprite),
       0 ≤ s.width → 0 ≤ s.height → 0 ≤ r.canvas_width → 0 ≤ r.canvas_height →
       (∃ e, draw_image r s { dx := -s.width - 1, dy := 0 } = Except.error e) ∧
       Renderer.render r s { dx := -s.width - 1, dy := 0 } = [] ∧
       draw_image r s { dx := 0, dy := 0 } =
         Except.ok [{ image := s.atlas, sx := s.sx, sy := s.sy, sw := s.width,
                      sh := s.height, dx := 0, dy := 0,
                      dw := s.width, dh := s.height }] ∧
       Renderer.render r s { dx := 0, dy := 0 } =
         [{ image := s.atlas, sx := s.sx, sy := s.sy, sw := s.width,
            sh := s.height, dx := 0, dy := 0,
            dw := s.width, dh := s.height }]) := by
  constructor
  · intro r s p
    exact ⟨draw_image_error_iff r s p, render_nil_iff r s { dx := p.dx, dy := p.dy }⟩
  · intro r s hw hh hcw hch
    refine ⟨?_, ?_, ?_, ?_⟩
    · exact (draw_image_error_iff r s _).mpr
        (Or.inl (show -s.width - 1 + s.width < 0 by linarith))
    · exact (render_nil_iff r s _).mpr
        (Or.inl (show -s.width - 1 + s.width < 0 by linarith))
    · unfold draw_image
      rw [if_pos ⟨by simpa using hw, hcw, by simpa using hh, hch⟩]
    · unfold Renderer.render
      rw [if_neg]
      intro hd
      rcases hd with hd | hd | hd | hd <;> simp at hd <;> linarith

/-- C4, witness: a 32 by 32 sprite on a 600 by 400 canvas. -/
theorem C4_witness :
    ((0:ℚ) ≤ 32 ∧ (0:ℚ) ≤ 32 ∧ (0:ℚ) ≤ 600 ∧ (0:ℚ) ≤ 400) ∧
      ((∃ e, draw_image { canvas_width := 600, canvas_height := 400 }
               { atlas := create_new_html_image_element [] "png",
                 sx := 0, sy := 0, width := 32, height := 32 }
               { dx := -(32:ℚ) - 1, dy := 0 } = Except.error e) ∧
       Renderer.render { canvas_width := 600, canvas_height := 400 }
           { atlas := create_new_html_image_element [] "png",
             sx := 0, sy := 0, width := 32, height := 32 }
           { dx := -(32:ℚ) - 1, dy := 0 } = [] ∧
       draw_image { canvas_width := 600, canvas_height := 400 }
           { atlas := create_new_html_image_element [] "png",
             sx := 0, sy := 0, width := 32, height := 32 }
           { dx := 0, dy := 0 } =
         Except.ok [{ image := create_new_html_image_element [] "png",
                      sx := 0, sy := 0, sw := 32, sh := 32, dx := 0, dy := 0,
                      dw := 32, dh := 32 }] ∧
       Renderer.render { canvas_width := 600, canvas_height := 400 }
           { atlas := create_new_html_image_element [] "png",
             sx := 0, sy := 0, width := 32, height := 32 }
           { dx := 0, dy := 0 } =
         [{ image := create_new_html_image_element [] "png",
            sx := 0, sy := 0, sw := 32, sh := 32, dx := 0, dy := 0,
            dw := 32, dh := 32 }]) :=
  ⟨⟨by decide, by decide, by decide, by decide⟩,
   C4_draw_bounds.2 { canvas_width := 600, canvas_height := 400 }
     { atlas := create_new_html_image_element [] "png",
       sx := 0, sy := 0, width := 32, height := 32 }
     (by decide) (by decide) (by decide) (by decide)⟩

/-- C9: `Renderer::text` issues no fill_text call exactly when the anchor lies
outside the canvas rectangle under the zero-size-box half-plane test, and
otherwise issues exactly one fill_text call at that position. -/
theorem C9_text_bounds :
    ∀ (r : Renderer) (t : String) (l : Location),
      (Renderer.text r t l = [] ↔
         (l.dx < 0 ∨ l.dx > r.canvas_width ∨ l.dy < 0 ∨ l.dy > r.canvas_height)) ∧
      (¬(l.dx < 0 ∨ l.dx > r.canvas_width ∨ l.dy < 0 ∨ l.dy > r.canvas_height) →
         Renderer.text r t l = [{ text := t, dx := l.dx, dy := l.dy }]) := by
  intro r t l
  constructor
  · unfold Renderer.text
    split_ifs with hc
    · exact iff_of_true rfl hc
    · exact iff_of_false (by simp) hc
  · intro hn
    unfold Renderer.text
    rw [if_neg hn]

/-- C9, witness: text anchored at (10, 20) on a 600 by 400 canvas is drawn by
exactly one fill_text call. -/
theorem C9_witness :
    (¬((10:ℚ) < 0 ∨ (10:ℚ) > (600:ℚ) ∨ (20:ℚ) < 0 ∨ (20:ℚ) > (400:ℚ))) ∧
      Renderer.text { canvas_width := 600, canvas_height := 400 } "score"
          { dx := 10, dy := 20 } =
        [{ text := "score", dx := 10, dy := 20 }] :=
  ⟨by decide,
   (C9_text_bounds { canvas_width := 600, canvas_height := 400 } "score"
       { dx := 10, dy := 20 }).2 (by decide)⟩

/-- C6: a raw key code mapped to tracked identifier `k` sets `k`'s flag true on
keydown and false on keyup; an unmapped raw code leaves the whole `KeyEvent`
unchanged on both, with no error. -/
theorem C6_press_release (s : KeyEvent) (code : ℕ) :
    (∀ k : KeyId, keyOfCode code = some k →
       (s.update_on_keydown code).getFlag k = true ∧
       (s.update_on_keyup code).getFlag k = false) ∧
    (keyOfCode code = none →
       s.update_on_keydown code = s ∧ s.update_on_keyup code = s) := by
  constructor
  · intro k hk
    have hmem := mem_trackedCodes_of_keyOfCode hk
    simp only [trackedCodes, List.mem_cons, List.mem_singleton,
      List.not_mem_nil, or_false] at hmem
    rcases hmem with rfl|rfl|rfl|rfl|rfl|rfl|rfl|rfl|rfl|rfl|rfl|rfl|rfl|rfl|rfl|rfl|rfl|rfl|rfl|rfl|rfl|rfl|rfl|rfl|rfl|rfl|rfl|rfl|rfl|rfl|rfl|rfl|rfl|rfl|rfl|rfl|rfl|rfl|rfl|rfl|rfl
    all_goals (injection hk with hk; subst hk; exact ⟨rfl, rfl⟩)
  · intro h
    exact ⟨keydown_unmapped s code h, keyup_unmapped s code h⟩

/-- C6, witness: the Enter code (13) is tracked and toggles the enter flag;
code 7 is unmapped and both events leave the state unchanged. -/
theorem C6_witness :
    (keyOfCode 13 = some KeyId.enter ∧ keyOfCode 7 = none) ∧
      ((KeyEvent.new.update_on_keydown 13).getFlag KeyId.enter = true ∧
       (KeyEvent.new.update_on_keyup 13).getFlag KeyId.enter = false) ∧
      (KeyEvent.new.update_on_keydown 7 = KeyEvent.new ∧
       KeyEvent.new.update_on_keyup 7 = KeyEvent.new) :=
  ⟨⟨rfl, rfl⟩,
   (C6_press_release KeyEvent.new 13).1 KeyId.enter rfl,
   (C6_press_release KeyEvent.new 7).2 rfl⟩

/-- The concrete event sequence of C7: keydown A (code 65), keydown Enter
(code 13), keyup A, starting from the fresh state. -/
def scenarioState : KeyEvent :=
  ((KeyEvent.new.update_on_keydown 65).update_on_keydown 13).update_on_keyup 65

set_option maxHeartbeats 2000000 in
/-- C7: a press or release event changes no flag other than the one its raw
code is mapped to; and the press-A, press-Enter, release-A scenario ends with
the A flag false, the Enter flag true, and all other flags false. -/
theorem C7_single_flag_frame :
    (∀ (s : KeyEvent) (code : ℕ) (k : KeyId), keyOfCode code ≠ some k →
       (s.update_on_keydown code).getFlag k = s.getFlag k ∧
       (s.update_on_keyup code).getFlag k = s.getFlag k) ∧
    (scenarioState.is_key_a_down = false ∧ scenarioState.is_enter_down = true ∧
     ∀ k : KeyId, k ≠ KeyId.key_a → k ≠ KeyId.enter →
       scenarioState.getFlag k = false) := by
  constructor
  · intro s code k hk
    by_cases hnone : keyOfCode code = none
    · rw [keydown_unmapped s code hnone, keyup_unmapped s code hnone]
      exact ⟨rfl, rfl⟩
    · obtain ⟨k2, hmap⟩ := Option.ne_none_iff_exists'.mp hnone
      have hmem := mem_trackedCodes_of_keyOfCode hmap
      clear hmap
      simp only [trackedCodes, List.mem_cons, List.mem_singleton,
        List.not_mem_nil, or_false] at hmem
      rcases hmem with rfl|rfl|rfl|rfl|rfl|rfl|rfl|rfl|rfl|rfl|rfl|rfl|rfl|rfl|rfl|rfl|rfl|rfl|rfl|rfl|rfl|rfl|rfl|rfl|rfl|rfl|rfl|rfl|rfl|rfl|rfl|rfl|rfl|rfl|rfl|rfl|rfl|rfl|rfl|rfl|rfl
      all_goals (cases k <;> first | exact ⟨rfl, rfl⟩ | exact absurd rfl hk)
  · refine ⟨rfl, rfl, ?_⟩
    intro k h1 h2
    cases k <;> first | rfl | exact absurd rfl h1 | exact absurd rfl h2

/-- C7, witness: pressing A (code 65) leaves the Enter flag unchanged. -/
theorem C7_witness :
    (keyOfCode 65 ≠ some KeyId.enter) ∧
      (KeyEvent.new.update_on_keydown 65).getFlag KeyId.enter =
        KeyEvent.new.getFlag KeyId.enter :=
  ⟨by decide,
   (C7_single_flag_frame.1 KeyEvent.new 65 KeyId.enter (by decide)).1⟩

/-- C8: press and release are idempotent — repeating the same keydown or keyup
event leaves the state exactly where one application put it. -/
theorem C8_idempotent (s : KeyEvent) (code : ℕ) :
    (s.update_on_keydown code).update_on_keydown code = s.update_on_keydown code ∧
    (s.update_on_keyup code).update_on_keyup code = s.update_on_keyup code := by
  by_cases hnone : keyOfCode code = none
  · refine ⟨?_, ?_⟩ <;>
      simp only [keydown_unmapped _ _ hnone, keyup_unmapped _ _ hnone]
  · obtain ⟨k2, hmap⟩ := Option.ne_none_iff_exists'.mp hnone
    have hmem := mem_trackedCodes_of_keyOfCode hmap
    clear hmap
    simp only [trackedCodes, List.mem_cons, List.mem_singleton,
      List.not_mem_nil, or_false] at hmem
    rcases hmem with rfl|rfl|rfl|rfl|rfl|rfl|rfl|rfl|rfl|rfl|rfl|rfl|rfl|rfl|rfl|rfl|rfl|rfl|rfl|rfl|rfl|rfl|rfl|rfl|rfl|rfl|rfl|rfl|rfl|rfl|rfl|rfl|rfl|rfl|rfl|rfl|rfl|rfl|rfl|rfl|rfl
    all_goals exact ⟨rfl, rfl⟩

/-- C10: a fresh `KeyEvent` reports every tracked key as up: every accessor
returns false before any press has been observed. -/
theorem C10_initial_all_up : ∀ k : KeyId, KeyEvent.new.getFlag k = false := by
  intro k
  cases k <;> rfl
